import Mathlib

/-!
Verification of the Lambda-layer upload utility `src/upload_layer.py`.

The script is a straight-line program: check the zip path exists, print two
informational lines, read the file, build a publish request with fixed
`CompatibleRuntimes` and `CompatibleArchitectures`, call the remote
`publish_layer_version` operation exactly once, and print the identifiers of
the response.  `main` wraps the call, printing `Error: <message>` to stderr
and exiting with code 1 on any exception, and exiting with code 0 otherwise.

The embedding makes the two ambient effects explicit parameters:
* the filesystem, a partial map from path strings to entries, and
* the remote collaborator, a function from the publish request to a
  response or an error.
The run of each Python function is a pure Lean function returning the
stdout lines printed, the list of remote calls performed, and the result.
-/

/-- A filesystem entry as observed by the script: an ordinary readable file
with its byte contents, a directory, or a regular file the process is not
permitted to read.  `Path.exists` is true for all three; only the first can
be opened for reading. -/
inductive FSEntry
  | file (bytes : List Nat)
  | dir (size : Nat)
  | unreadableFile (size : Nat)
deriving DecidableEq, Repr

/-- The filesystem: a partial map from path strings to entries. -/
def FS : Type := String → Option FSEntry

/-- `Path.stat().st_size` of an entry. -/
def FSEntry.stSize : FSEntry → Nat
  | .file bytes => bytes.length
  | .dir n => n
  | .unreadableFile n => n

/-- The keyword arguments passed to `publish_layer_version`
(`publish_params` in the source, lines 69-81). -/
structure PublishParams where
  LayerName : String
  ZipFile : List Nat
  CompatibleRuntimes : List String
  CompatibleArchitectures : List String
  Description : String
deriving DecidableEq, Repr

/-- The fields of the `publish_layer_version` response that the script
reads (lines 89-91). -/
structure PublishResponse where
  LayerArn : String
  Version : Nat
  LayerVersionArn : String
deriving DecidableEq, Repr

/-- The remote collaborator: the `publish_layer_version` operation of the
cloud SDK client, returning a response or signalling an error message. -/
def Remote : Type := PublishParams → Except String PublishResponse

/-- The exceptions `upload_lambda_layer` can raise: `FileNotFoundError`
from the explicit existence check (line 60), an `OSError` from `open`
(line 65) when the path exists but is not a readable regular file, and the
SDK client error from the publish call (line 85).  Python prints each one
via `str(e)`, which yields the carried message. -/
inductive UploadError
  | fileNotFoundError (msg : String)
  | osError (msg : String)
  | clientError (msg : String)
deriving DecidableEq, Repr

/-- `str(e)` of a raised exception: the carried message. -/
def UploadError.message : UploadError → String
  | .fileNotFoundError m => m
  | .osError m => m
  | .clientError m => m

/-- Round `num / den` to the nearest integer, ties to even: the rounding
`f"{x:.2f}"` applies to the (exact) value of the double `x`. -/
def roundHalfEven (num den : Nat) : Nat :=
  let q := num / den
  let r := num % den
  if 2 * r < den then q
  else if 2 * r > den then q + 1
  else if q % 2 = 0 then q else q + 1

/-- The two-digit decimal rendering of `m < 100`. -/
def twoDigits (m : Nat) : String :=
  String.mk [Nat.digitChar (m / 10), Nat.digitChar (m % 10)]

/-- `f"{size / (1024*1024):.2f}"` (line 63): the byte count converted to MB
and formatted with two decimal places.  For sizes below `2^53` the
double-precision quotient `size / 2^20` is exact, because the divisor is a
power of two, so the format statement rounds the exact rational
`size / 2^20` to two decimals with ties to even — which is what this
function computes over the naturals. -/
def formatMB (size : Nat) : String :=
  let h := roundHalfEven (size * 100) (1024 * 1024)
  toString (h / 100) ++ "." ++ twoDigits (h % 100)

/-- The constant `CompatibleRuntimes` list (line 74). -/
def compatibleRuntimes : List String := ["python3.14", "python3.13", "python3.12"]

/-- The constant `CompatibleArchitectures` list (line 75). -/
def compatibleArchitectures : List String := ["arm64"]

/-- The default description synthesized on line 81. -/
def defaultDescription (layer_name : String) : String :=
  "Lambda layer for " ++ layer_name

/-- Lines 69-81: build `publish_params` from the layer name, the file
contents and the optional description.  `if description:` is a Python
truthiness test, so both `None` and the empty string select the default. -/
def buildPublishParams (layer_name : String) (zip_content : List Nat)
    (description : Option String) : PublishParams :=
  { LayerName := layer_name
    ZipFile := zip_content
    CompatibleRuntimes := compatibleRuntimes
    CompatibleArchitectures := compatibleArchitectures
    Description :=
      match description with
      | some d => if d = "" then defaultDescription layer_name else d
      | none => defaultDescription layer_name }

/-- Everything observable about one run of `upload_lambda_layer`: the lines
printed to stdout (one list element per `print` call), the remote publish
calls performed, and the returned response or raised exception. -/
structure UploadOutcome where
  stdout : List String
  calls : List PublishParams
  result : Except UploadError PublishResponse
deriving Repr

/-- `upload_lambda_layer` (lines 41-93), step for step: existence check,
the two informational prints, the full read of the file (completed, and the
handle released, before the remote call is made — the `with open(...)`
block closes before line 85 runs), the publish call, and the success
prints. -/
def upload_lambda_layer (fs : FS) (remote : Remote)
    (zip_file_path layer_name region : String) (description : Option String) :
    UploadOutcome :=
  match fs zip_file_path with
  | none =>
      { stdout := []
        calls := []
        result := .error (.fileNotFoundError ("Zip file not found: " ++ zip_file_path)) }
  | some entry =>
      let headerLines := ["Reading zip file: " ++ zip_file_path,
                          "File size: " ++ formatMB entry.stSize ++ " MB"]
      match entry with
      | .dir _ =>
          { stdout := headerLines
            calls := []
            result := .error (.osError ("[Errno 21] Is a directory: " ++ zip_file_path)) }
      | .unreadableFile _ =>
          { stdout := headerLines
            calls := []
            result := .error (.osError ("[Errno 13] Permission denied: " ++ zip_file_path)) }
      | .file zip_content =>
          let publish_params := buildPublishParams layer_name zip_content description
          let uploadingLine :=
            "\nUploading layer \x27" ++ layer_name ++ "\x27 to region \x27" ++ region ++ "\x27..."
          match remote publish_params with
          | .error m =>
              { stdout := headerLines ++ [uploadingLine]
                calls := [publish_params]
                result := .error (.clientError m) }
          | .ok response =>
              { stdout := headerLines ++
                  [uploadingLine,
                   "\n✓ Layer uploaded successfully!",
                   "Layer ARN: " ++ response.LayerArn,
                   "Version: " ++ toString response.Version,
                   "Version ARN: " ++ response.LayerVersionArn]
                calls := [publish_params]
                result := .ok response }

/-- Everything observable about one run of the process: stdout, stderr and
the exit code. -/
structure MainOutcome where
  stdout : List String
  stderr : List String
  exitCode : Nat
deriving Repr

/-- `main` (lines 96-133; Lean reserves the name `main`, hence `mainRun`) after argument parsing: run
`upload_lambda_layer`; on any exception print `Error: <message>` to stderr
and exit with code 1, otherwise fall off the end of the program (exit
code 0). -/
def mainRun (fs : FS) (remote : Remote)
    (zip_file layer_name region : String) (description : Option String) :
    MainOutcome :=
  let o := upload_lambda_layer fs remote zip_file layer_name region description
  match o.result with
  | .ok _ => { stdout := o.stdout, stderr := [], exitCode := 0 }
  | .error e => { stdout := o.stdout, stderr := ["Error: " ++ e.message], exitCode := 1 }

/-- A concrete filesystem used by the witnesses: one readable zip file, one
directory, one unreadable file. -/
def fsEx : FS := fun p =>
  if p = "layer.zip" then some (.file [80, 75, 3, 4])
  else if p = "build" then some (.dir 160)
  else if p = "secret.zip" then some (.unreadableFile 7)
  else none

/-- A remote collaborator that always succeeds with a fixed response. -/
def remoteOkEx : Remote := fun _ =>
  .ok { LayerArn := "arn:aws:lambda:us-east-1:123456789012:layer:foo"
        Version := 3
        LayerVersionArn := "arn:aws:lambda:us-east-1:123456789012:layer:foo:3" }

/-- A remote collaborator that always fails. -/
def remoteErrEx : Remote := fun _ => .error "AccessDeniedException"

/-- Unfolding of the call list of a run on an existing readable file: the
publish request is built once from the arguments and the file contents, and
the remote operation is applied to it exactly once, whatever it answers. -/
theorem calls_eq_of_file (fs : FS) (remote : Remote)
    (path name region : String) (desc : Option String) (bytes : List Nat)
    (h : fs path = some (.file bytes)) :
    (upload_lambda_layer fs remote path name region desc).calls =
      [buildPublishParams name bytes desc] := by
  simp only [upload_lambda_layer, h]
  cases remote (buildPublishParams name bytes desc) <;> rfl

/-- Unfolding of the result of a run on an existing readable file. -/
theorem result_eq_of_file (fs : FS) (remote : Remote)
    (path name region : String) (desc : Option String) (bytes : List Nat)
    (h : fs path = some (.file bytes)) :
    (upload_lambda_layer fs remote path name region desc).result =
      match remote (buildPublishParams name bytes desc) with
      | .error m => .error (.clientError m)
      | .ok response => .ok response := by
  simp only [upload_lambda_layer, h]
  cases remote (buildPublishParams name bytes desc) <;> rfl

/-- Unfolding of the stdout of a run on an existing readable file: the three
informational lines, followed by the success lines only when the remote call
succeeds. -/
theorem stdout_eq_of_file (fs : FS) (remote : Remote)
    (path name region : String) (desc : Option String) (bytes : List Nat)
    (h : fs path = some (.file bytes)) :
    (upload_lambda_layer fs remote path name region desc).stdout =
      ["Reading zip file: " ++ path,
       "File size: " ++ formatMB bytes.length ++ " MB",
       "\nUploading layer \x27" ++ name ++ "\x27 to region \x27" ++ region ++ "\x27..."] ++
      (match remote (buildPublishParams name bytes desc) with
       | .error _ => []
       | .ok response =>
          ["\n✓ Layer uploaded successfully!",
           "Layer ARN: " ++ response.LayerArn,
           "Version: " ++ toString response.Version,
           "Version ARN: " ++ response.LayerVersionArn]) := by
  simp only [upload_lambda_layer, h]
  cases remote (buildPublishParams name bytes desc) <;> rfl

/-- C1: when the zip file exists (as a readable regular file), the run
performs exactly one remote publish call — whether the remote call succeeds
or fails, so never zero and never a retry — and that call carries the fixed
constant `CompatibleRuntimes` and `CompatibleArchitectures` lists, whatever
the path, layer name, region and description are. -/
theorem publish_exactly_one_call_fixed_metadata (fs : FS) (remote : Remote)
    (path name region : String) (desc : Option String) (bytes : List Nat)
    (h : fs path = some (.file bytes)) :
    (upload_lambda_layer fs remote path name region desc).calls.length = 1 ∧
    ∀ p ∈ (upload_lambda_layer fs remote path name region desc).calls,
      p.CompatibleRuntimes = ["python3.14", "python3.13", "python3.12"] ∧
      p.CompatibleArchitectures = ["arm64"] := by
  rw [calls_eq_of_file fs remote path name region desc bytes h]
  refine ⟨rfl, ?_⟩
  intro p hp
  rw [List.mem_singleton] at hp
  subst hp
  exact ⟨rfl, rfl⟩

/-- Witness for C1 at a concrete input. -/
theorem publish_exactly_one_call_fixed_metadata_witness :
    (upload_lambda_layer fsEx remoteOkEx "layer.zip" "foo" "us-east-1" none).calls.length = 1 ∧
    ∀ p ∈ (upload_lambda_layer fsEx remoteOkEx "layer.zip" "foo" "us-east-1" none).calls,
      p.CompatibleRuntimes = ["python3.14", "python3.13", "python3.12"] ∧
      p.CompatibleArchitectures = ["arm64"] :=
  publish_exactly_one_call_fixed_metadata fsEx remoteOkEx
    "layer.zip" "foo" "us-east-1" none [80, 75, 3, 4] (by decide)

/-- C2: when the path does not resolve to an existing entry, the run raises
`FileNotFoundError` with the message of line 60 and performs zero remote
calls. -/
theorem missing_file_fails_before_remote_call (fs : FS) (remote : Remote)
    (path name region : String) (desc : Option String)
    (h : fs path = none) :
    (upload_lambda_layer fs remote path name region desc).result =
      .error (.fileNotFoundError ("Zip file not found: " ++ path)) ∧
    (upload_lambda_layer fs remote path name region desc).calls = [] := by
  unfold upload_lambda_layer
  rw [h]
  exact ⟨rfl, rfl⟩

/-- Witness for C2 at a concrete input. -/
theorem missing_file_fails_before_remote_call_witness :
    (upload_lambda_layer fsEx remoteOkEx "missing.zip" "foo" "us-east-1" none).result =
      .error (.fileNotFoundError ("Zip file not found: " ++ "missing.zip")) ∧
    (upload_lambda_layer fsEx remoteOkEx "missing.zip" "foo" "us-east-1" none).calls = [] :=
  missing_file_fails_before_remote_call fsEx remoteOkEx
    "missing.zip" "foo" "us-east-1" none (by decide)

/-- C7: when the zip file exists, the single publish request carries as its
zip content exactly the full byte contents of the file — for every remote
collaborator, so the contents handed over are fully materialised before the
remote call is made and do not depend on it (no interleaved streaming). -/
theorem request_zip_is_full_file_contents (fs : FS) (remote : Remote)
    (path name region : String) (desc : Option String) (bytes : List Nat)
    (h : fs path = some (.file bytes)) :
    (upload_lambda_layer fs remote path name region desc).calls.map
      PublishParams.ZipFile = [bytes] := by
  rw [calls_eq_of_file fs remote path name region desc bytes h]
  rfl

/-- Witness for C7 at a concrete input. -/
theorem request_zip_is_full_file_contents_witness :
    (upload_lambda_layer fsEx remoteOkEx "layer.zip" "foo" "us-east-1" none).calls.map
      PublishParams.ZipFile = [[80, 75, 3, 4]] :=
  request_zip_is_full_file_contents fsEx remoteOkEx
    "layer.zip" "foo" "us-east-1" none [80, 75, 3, 4] (by decide)

/-- C8: a supplied but empty description is treated like an omitted one —
`if description:` is false for the empty string — so the request carries the
synthesized default, not the empty string. -/
theorem empty_description_treated_as_omitted (fs : FS) (remote : Remote)
    (path name region : String) (bytes : List Nat)
    (h : fs path = some (.file bytes)) :
    ∀ p ∈ (upload_lambda_layer fs remote path name region (some "")).calls,
      p.Description = "Lambda layer for " ++ name ∧ p.Description ≠ "" := by
  rw [calls_eq_of_file fs remote path name region (some "") bytes h]
  intro p hp
  rw [List.mem_singleton] at hp
  subst hp
  refine ⟨rfl, ?_⟩
  intro habs
  have hd : (buildPublishParams name bytes (some "")).Description =
      "Lambda layer for " ++ name := rfl
  rw [hd] at habs
  have hlen := congrArg String.length habs
  rw [String.length_append] at hlen
  have h17 : ("Lambda layer for " : String).length = 17 := rfl
  have h0 : ("" : String).length = 0 := rfl
  rw [h17, h0] at hlen
  omega

/-- Witness for C8 at a concrete input: the one request of the run with a
supplied empty description carries the default description. -/
theorem empty_description_treated_as_omitted_witness :
    (buildPublishParams "foo" [80, 75, 3, 4] (some "")).Description =
      "Lambda layer for " ++ "foo" ∧
    (buildPublishParams "foo" [80, 75, 3, 4] (some "")).Description ≠ "" :=
  empty_description_treated_as_omitted fsEx remoteOkEx
    "layer.zip" "foo" "us-east-1" [80, 75, 3, 4] (by decide)
    (buildPublishParams "foo" [80, 75, 3, 4] (some "")) (by decide)

/-- C10: on the `FileNotFoundError` path nothing is printed to stdout: the
whole process output is the single stderr line, and the exit code is 1. -/
theorem file_not_found_stdout_empty (fs : FS) (remote : Remote)
    (path name region : String) (desc : Option String)
    (h : fs path = none) :
    (mainRun fs remote path name region desc).stdout = [] ∧
    (mainRun fs remote path name region desc).stderr =
      ["Error: " ++ ("Zip file not found: " ++ path)] ∧
    (mainRun fs remote path name region desc).exitCode = 1 := by
  unfold mainRun upload_lambda_layer
  rw [h]
  exact ⟨rfl, rfl, rfl⟩

/-- Witness for C10 at a concrete input. -/
theorem file_not_found_stdout_empty_witness :
    (mainRun fsEx remoteOkEx "missing.zip" "foo" "us-east-1" none).stdout = [] ∧
    (mainRun fsEx remoteOkEx "missing.zip" "foo" "us-east-1" none).stderr =
      ["Error: " ++ ("Zip file not found: " ++ "missing.zip")] ∧
    (mainRun fsEx remoteOkEx "missing.zip" "foo" "us-east-1" none).exitCode = 1 :=
  file_not_found_stdout_empty fsEx remoteOkEx "missing.zip" "foo" "us-east-1" none (by decide)

/-- If a string starting with `a` equals `c`, then `a`'s characters are a
prefix of `c`'s; contrapositively, a string cannot equal `c` when its known
leading literal is not a prefix of `c`.  Used to separate the informational
lines from the success lines. -/
theorem string_append_ne (a b c : String)
    (h : a.data.isPrefixOf c.data = false) : a ++ b ≠ c := by
  intro habs
  have hd : c.data = a.data ++ b.data := by
    rw [← habs, String.data_append]
  rw [hd] at h
  have htrue : a.data.isPrefixOf (a.data ++ b.data) = true :=
    List.isPrefixOf_iff_prefix.mpr (List.prefix_append a.data b.data)
  rw [htrue] at h
  simp at h

/-- `main` passes the stdout of `upload_lambda_layer` through unchanged on
both the success and the error path. -/
theorem mainRun_stdout_eq (fs : FS) (remote : Remote)
    (path name region : String) (desc : Option String) :
    (mainRun fs remote path name region desc).stdout =
      (upload_lambda_layer fs remote path name region desc).stdout := by
  simp only [mainRun]
  cases (upload_lambda_layer fs remote path name region desc).result <;> rfl

/-- C3: whenever `upload_lambda_layer` raises, the process exits with
code 1 and writes exactly `Error: ` followed by the message of the raised
exception to stderr; when nothing is raised it exits with code 0 and stderr
stays empty; and when the remote call itself is what fails, stdout holds
exactly the three informational lines — no success marker and no
identifier lines. -/
theorem main_exit_codes_and_stderr (fs : FS) (remote : Remote)
    (path name region : String) (desc : Option String) :
    (∀ e, (upload_lambda_layer fs remote path name region desc).result = .error e →
        (mainRun fs remote path name region desc).exitCode = 1 ∧
        (mainRun fs remote path name region desc).stderr = ["Error: " ++ e.message]) ∧
    (∀ r, (upload_lambda_layer fs remote path name region desc).result = .ok r →
        (mainRun fs remote path name region desc).exitCode = 0 ∧
        (mainRun fs remote path name region desc).stderr = []) ∧
    (∀ bytes m, fs path = some (.file bytes) →
        remote (buildPublishParams name bytes desc) = .error m →
        (mainRun fs remote path name region desc).stdout =
          ["Reading zip file: " ++ path,
           "File size: " ++ formatMB bytes.length ++ " MB",
           "\nUploading layer \x27" ++ name ++ "\x27 to region \x27" ++ region ++ "\x27..."] ∧
        "\n✓ Layer uploaded successfully!" ∉
          (mainRun fs remote path name region desc).stdout) := by
  refine ⟨?_, ?_, ?_⟩
  · intro e he
    simp only [mainRun]
    rw [he]
    exact ⟨rfl, rfl⟩
  · intro r hr
    simp only [mainRun]
    rw [hr]
    exact ⟨rfl, rfl⟩
  · intro bytes m hf hr
    have hstdout : (mainRun fs remote path name region desc).stdout =
        ["Reading zip file: " ++ path,
         "File size: " ++ formatMB bytes.length ++ " MB",
         "\nUploading layer \x27" ++ name ++ "\x27 to region \x27" ++ region ++ "\x27..."] := by
      rw [mainRun_stdout_eq, stdout_eq_of_file fs remote path name region desc bytes hf, hr]
      rfl
    refine ⟨hstdout, ?_⟩
    rw [hstdout]
    intro hmem
    simp only [List.mem_cons, List.not_mem_nil, or_false] at hmem
    rcases hmem with h1 | h2 | h3
    · exact string_append_ne "Reading zip file: " path _ (by decide) h1.symm
    · rw [String.append_assoc] at h2
      exact string_append_ne "File size: " _ _ (by decide) h2.symm
    · simp only [String.append_assoc] at h3
      exact string_append_ne "\nUploading layer \x27" _ _ (by decide) h3.symm

/-- Witness for C3 at concrete inputs: a failing remote gives exit code 1,
the prefixed stderr line and no success marker on stdout; a succeeding
remote gives exit code 0. -/
theorem main_exit_codes_and_stderr_witness :
    ((mainRun fsEx remoteErrEx "layer.zip" "foo" "us-east-1" none).exitCode = 1 ∧
     (mainRun fsEx remoteErrEx "layer.zip" "foo" "us-east-1" none).stderr =
       ["Error: " ++ (UploadError.clientError "AccessDeniedException").message]) ∧
    ((mainRun fsEx remoteOkEx "layer.zip" "foo" "us-east-1" none).exitCode = 0 ∧
     (mainRun fsEx remoteOkEx "layer.zip" "foo" "us-east-1" none).stderr = []) ∧
    "\n✓ Layer uploaded successfully!" ∉
      (mainRun fsEx remoteErrEx "layer.zip" "foo" "us-east-1" none).stdout :=
  ⟨(main_exit_codes_and_stderr fsEx remoteErrEx "layer.zip" "foo" "us-east-1" none).1
      (.clientError "AccessDeniedException") rfl,
   (main_exit_codes_and_stderr fsEx remoteOkEx "layer.zip" "foo" "us-east-1" none).2.1
      { LayerArn := "arn:aws:lambda:us-east-1:123456789012:layer:foo"
        Version := 3
        LayerVersionArn := "arn:aws:lambda:us-east-1:123456789012:layer:foo:3" } rfl,
   ((main_exit_codes_and_stderr fsEx remoteErrEx "layer.zip" "foo" "us-east-1" none).2.2
      [80, 75, 3, 4] "AccessDeniedException" (by decide) rfl).2⟩

/-- C4 counterexample: for the run where a description is supplied as the
empty string, the single publish request's description is the synthesized
default, not the supplied string — so "when a description is supplied, the
request's Description equals that supplied string" fails as stated. -/
theorem supplied_description_counterexample :
    (upload_lambda_layer fsEx remoteOkEx "layer.zip" "foo" "us-east-1" (some "")).calls.map
      PublishParams.Description = ["Lambda layer for foo"] ∧
    "Lambda layer for foo" ≠ "" := by decide

/-- C4 (amended): with the description omitted, the request's description
is the literal concatenation `Lambda layer for ` + layerName; with a
non-empty description supplied, the request's description is the supplied
string. -/
theorem description_default_or_nonempty_supplied (fs : FS) (remote : Remote)
    (path name region : String) (bytes : List Nat)
    (h : fs path = some (.file bytes)) :
    ((upload_lambda_layer fs remote path name region none).calls.map
        PublishParams.Description = ["Lambda layer for " ++ name]) ∧
    ∀ d : String, d ≠ "" →
      (upload_lambda_layer fs remote path name region (some d)).calls.map
        PublishParams.Description = [d] := by
  constructor
  · rw [calls_eq_of_file fs remote path name region none bytes h]
    rfl
  · intro d hd
    rw [calls_eq_of_file fs remote path name region (some d) bytes h]
    simp [buildPublishParams, hd]

/-- Witness for the amended C4 at concrete inputs. -/
theorem description_default_or_nonempty_supplied_witness :
    ((upload_lambda_layer fsEx remoteOkEx "layer.zip" "foo" "us-east-1" none).calls.map
        PublishParams.Description = ["Lambda layer for " ++ "foo"]) ∧
    (upload_lambda_layer fsEx remoteOkEx "layer.zip" "foo" "us-east-1"
        (some "My layer")).calls.map PublishParams.Description = ["My layer"] :=
  ⟨(description_default_or_nonempty_supplied fsEx remoteOkEx
      "layer.zip" "foo" "us-east-1" [80, 75, 3, 4] (by decide)).1,
   (description_default_or_nonempty_supplied fsEx remoteOkEx
      "layer.zip" "foo" "us-east-1" [80, 75, 3, 4] (by decide)).2 "My layer" (by decide)⟩

/-- C5: on a successful run, stdout is exactly: the reading line, the file
size line, the uploading line, the success marker, and the three identifier
lines carrying the remote response values verbatim, in this order. -/
theorem success_stdout_line_order (fs : FS) (remote : Remote)
    (path name region : String) (desc : Option String) (bytes : List Nat)
    (resp : PublishResponse)
    (h : fs path = some (.file bytes))
    (hr : remote (buildPublishParams name bytes desc) = .ok resp) :
    (upload_lambda_layer fs remote path name region desc).stdout =
      ["Reading zip file: " ++ path,
       "File size: " ++ formatMB bytes.length ++ " MB",
       "\nUploading layer \x27" ++ name ++ "\x27 to region \x27" ++ region ++ "\x27...",
       "\n✓ Layer uploaded successfully!",
       "Layer ARN: " ++ resp.LayerArn,
       "Version: " ++ toString resp.Version,
       "Version ARN: " ++ resp.LayerVersionArn] := by
  rw [stdout_eq_of_file fs remote path name region desc bytes h, hr]
  rfl

/-- Witness for C5 at a concrete input. -/
theorem success_stdout_line_order_witness :
    (upload_lambda_layer fsEx remoteOkEx "layer.zip" "foo" "us-east-1" none).stdout =
      ["Reading zip file: " ++ "layer.zip",
       "File size: " ++ formatMB 4 ++ " MB",
       "\nUploading layer \x27" ++ "foo" ++ "\x27 to region \x27" ++ "us-east-1" ++ "\x27...",
       "\n✓ Layer uploaded successfully!",
       "Layer ARN: " ++ "arn:aws:lambda:us-east-1:123456789012:layer:foo",
       "Version: " ++ toString 3,
       "Version ARN: " ++ "arn:aws:lambda:us-east-1:123456789012:layer:foo:3"] :=
  success_stdout_line_order fsEx remoteOkEx "layer.zip" "foo" "us-east-1" none
    [80, 75, 3, 4]
    { LayerArn := "arn:aws:lambda:us-east-1:123456789012:layer:foo"
      Version := 3
      LayerVersionArn := "arn:aws:lambda:us-east-1:123456789012:layer:foo:3" }
    (by decide) rfl

/-- `roundHalfEven` over denominator `1024 * 1024` is within half a unit of
the exact quotient: `|num - h * 2^20| * 2 ≤ 2^20`. -/
theorem roundHalfEven_nearest_mb (num : Nat) :
    2 * (roundHalfEven num (1024 * 1024) * (1024 * 1024)) ≤ 2 * num + 1024 * 1024 ∧
    2 * num ≤ 2 * (roundHalfEven num (1024 * 1024) * (1024 * 1024)) + 1024 * 1024 := by
  simp only [roundHalfEven]
  split_ifs <;> constructor <;> omega

/-- C6: the second stdout line is `File size: <formatMB bytes> MB`; the
formatted value always consists of an integer part, a dot and exactly two
decimal digits, and the hundredths value is the byte count divided by
`1024 * 1024`, scaled by 100 and rounded to the nearest integer (ties to
even): `|100 * size - h * 2^20| * 2 ≤ 2^20`.  In particular a file of
exactly `10 * 1024 * 1024` bytes prints `10.00`. -/
theorem file_size_line_two_decimals (fs : FS) (remote : Remote)
    (path name region : String) (desc : Option String) (bytes : List Nat)
    (h : fs path = some (.file bytes)) :
    (upload_lambda_layer fs remote path name region desc).stdout.get? 1 =
      some ("File size: " ++ formatMB bytes.length ++ " MB") ∧
    (∀ size : Nat,
        formatMB size =
          toString (roundHalfEven (size * 100) (1024 * 1024) / 100) ++ "." ++
            twoDigits (roundHalfEven (size * 100) (1024 * 1024) % 100) ∧
        (twoDigits (roundHalfEven (size * 100) (1024 * 1024) % 100)).length = 2 ∧
        2 * (roundHalfEven (size * 100) (1024 * 1024) * (1024 * 1024)) ≤
          2 * (size * 100) + 1024 * 1024 ∧
        2 * (size * 100) ≤
          2 * (roundHalfEven (size * 100) (1024 * 1024) * (1024 * 1024)) + 1024 * 1024) ∧
    formatMB (10 * 1024 * 1024) = "10.00" := by
  refine ⟨?_, ?_, by decide⟩
  · rw [stdout_eq_of_file fs remote path name region desc bytes h]
    cases remote (buildPublishParams name bytes desc) <;> rfl
  · intro size
    exact ⟨rfl, rfl, roundHalfEven_nearest_mb (size * 100)⟩

/-- Witness for C6 at a concrete input. -/
theorem file_size_line_two_decimals_witness :
    (upload_lambda_layer fsEx remoteOkEx "layer.zip" "foo" "us-east-1" none).stdout.get? 1 =
      some ("File size: " ++ formatMB (List.length [80, 75, 3, 4]) ++ " MB") ∧
    formatMB (10 * 1024 * 1024) = "10.00" :=
  ⟨(file_size_line_two_decimals fsEx remoteOkEx
      "layer.zip" "foo" "us-east-1" none [80, 75, 3, 4] (by decide)).1,
   (file_size_line_two_decimals fsEx remoteOkEx
      "layer.zip" "foo" "us-east-1" none [80, 75, 3, 4] (by decide)).2.2⟩

/-- C9: when the path exists but is not a readable regular file, the
existence check passes — existence is the only local precondition — so the
run does not raise `FileNotFoundError`; it raises an `OSError` from `open`
instead, with a message different from the `FileNotFoundError` one, the
process still exits with code 1, and no remote call is made. -/
theorem exists_but_not_regular_file (fs : FS) (remote : Remote)
    (path name region : String) (desc : Option String) (entry : FSEntry)
    (hexists : fs path = some entry)
    (hnotfile : ∀ bytes, entry ≠ FSEntry.file bytes) :
    (∃ m, (upload_lambda_layer fs remote path name region desc).result =
        .error (.osError m) ∧ m ≠ "Zip file not found: " ++ path) ∧
    (∀ m, (upload_lambda_layer fs remote path name region desc).result ≠
        .error (.fileNotFoundError m)) ∧
    (mainRun fs remote path name region desc).exitCode = 1 ∧
    (upload_lambda_layer fs remote path name region desc).calls = [] := by
  cases entry with
  | file bytes => exact absurd rfl (hnotfile bytes)
  | dir n =>
      have hres : (upload_lambda_layer fs remote path name region desc).result =
          .error (.osError ("[Errno 21] Is a directory: " ++ path)) := by
        unfold upload_lambda_layer
        rw [hexists]
      refine ⟨⟨_, hres, ?_⟩, ?_, ?_, ?_⟩
      · intro habs
        have hlen := congrArg String.length habs
        rw [String.length_append, String.length_append] at hlen
        have e1 : ("[Errno 21] Is a directory: " : String).length = 27 := rfl
        have e2 : ("Zip file not found: " : String).length = 20 := rfl
        rw [e1, e2] at hlen
        omega
      · intro m habs
        rw [hres] at habs
        simp at habs
      · simp only [mainRun]
        rw [hres]
      · unfold upload_lambda_layer
        rw [hexists]
  | unreadableFile n =>
      have hres : (upload_lambda_layer fs remote path name region desc).result =
          .error (.osError ("[Errno 13] Permission denied: " ++ path)) := by
        unfold upload_lambda_layer
        rw [hexists]
      refine ⟨⟨_, hres, ?_⟩, ?_, ?_, ?_⟩
      · intro habs
        have hlen := congrArg String.length habs
        rw [String.length_append, String.length_append] at hlen
        have e1 : ("[Errno 13] Permission denied: " : String).length = 30 := rfl
        have e2 : ("Zip file not found: " : String).length = 20 := rfl
        rw [e1, e2] at hlen
        omega
      · intro m habs
        rw [hres] at habs
        simp at habs
      · simp only [mainRun]
        rw [hres]
      · unfold upload_lambda_layer
        rw [hexists]

/-- Witness for C9 at a concrete input: a directory named by the path. -/
theorem exists_but_not_regular_file_witness :
    (mainRun fsEx remoteOkEx "build" "foo" "us-east-1" none).exitCode = 1 ∧
    (upload_lambda_layer fsEx remoteOkEx "build" "foo" "us-east-1" none).calls = [] :=
  ⟨(exists_but_not_regular_file fsEx remoteOkEx "build" "foo" "us-east-1" none
      (.dir 160) (by decide) (fun _ h => FSEntry.noConfusion h)).2.2.1,
   (exists_but_not_regular_file fsEx remoteOkEx "build" "foo" "us-east-1" none
      (.dir 160) (by decide) (fun _ h => FSEntry.noConfusion h)).2.2.2⟩
